import Mathlib

/-!
Verification of the MCP test client protocol engine
(`src/testing/integration/mcp_test_client.py`, class `MCPClient`, and
`src/testing/integration/test_llm_evaluation.py`, class `MCPTestClient`).

The Python client drives a line-framed JSON-RPC protocol over the pipes of a
child process.  A background reader thread (`_read_responses`) parses each
line and pushes every successfully parsed message onto a single shared FIFO
queue; callers consume the queue head via `_wait_for_response`
(`queue.get(timeout)`).

Shallow embedding conventions:
  - A JSON message is modelled by `Msg`, which records exactly the fields the
    client inspects: `id`, `method`, the presence and payload of `result` and
    `error`, plus a flag `otherFields` recording whether any further keys are
    present (needed only for the Python truthiness test `if not response`,
    which treats the empty object like a missing response).
  - A raw line read by the reader thread is a `Line`: whitespace-only,
    malformed (fails `json.loads`), or a parsed message.
  - Real time is abstracted away: a blocking `queue.get(timeout)` is modelled
    by `waitForResponse q arrivals`, where `arrivals` is the list of lines the
    reader thread reads during the wait window.  An empty combined queue means
    the wait timed out (`Empty` was raised, `None` returned).  The child
    process exiting during the wait is indistinguishable from silence at this
    interface: `queue.get` observes only the queue, so such a scenario is the
    special case of an arrivals list that simply ends.
  - Write failures (an exception inside `_send_message`) are modelled by the
    boolean parameter `writeOk`; `_send_message` itself also re-checks process
    liveness.
  - Payloads of `params`, `result` and `error` are carried as opaque strings;
    the client never inspects their structure.
  - `json.loads` accepts any JSON value, not only objects, and
    `_read_responses` enqueues whatever it returns.  The `Msg`/`Line` layer
    covers object-shaped frames, which is all the protocol traffic; the
    refined `JVal`/`RLine` layer additionally represents non-object values
    (numbers, strings, arrays, booleans, null) together with their Python
    truthiness, and `call_tool_r` on that layer records that dequeuing a
    truthy non-object value makes `response.get` raise an uncaught
    `AttributeError` (outcome `PyOutcome.attrError`), while a falsy one is
    swallowed by `if not response` and returns `None`.
-/

/-- One parsed JSON message, restricted to the fields `MCPClient` reads.
`id := none` models an absent `id` key (Python `response.get("id")` yields
`None`), `result := none` an absent `result` key, `error := none` an absent
`error` key, and `otherFields` whether the object carries any further keys
(such as `jsonrpc` or `params`). -/
structure Msg where
  id : Option Nat := none
  method : Option String := none
  result : Option String := none
  error : Option String := none
  otherFields : Bool := false
deriving DecidableEq, Repr

/-- Python truthiness of the parsed dict: `if not response` is taken when the
dict is empty.  A message is falsy exactly when every key is absent. -/
def Msg.isFalsy (m : Msg) : Bool :=
  m.id.isNone && m.method.isNone && m.result.isNone && m.error.isNone &&
    !m.otherFields

/-- A raw line as seen by `_read_responses`: whitespace-only (skipped by
`if line:` after `strip()`), malformed JSON (raises `json.JSONDecodeError`,
caught, reported, skipped), or a parsed message. -/
inductive Line where
  | blank : Line
  | malformed (s : String) : Line
  | parsed (m : Msg) : Line
deriving DecidableEq, Repr

/-- State of an `MCPClient` object: `processAlive = none` models
`self.process is None`, `some false` a spawned process whose `poll()` is no
longer `None` (exited), `some true` a running process.  `message_id` is the
id counter (`self.message_id`, initialised to 1 in `__init__`), `queue` the
shared `response_queue` in FIFO order. -/
structure Client where
  processAlive : Option Bool
  message_id : Nat
  queue : List Msg
deriving DecidableEq, Repr

/-- The client right after `MCPClient.__init__`: no process, counter 1,
empty queue. -/
def freshClient : Client :=
  { processAlive := none, message_id := 1, queue := [] }

/-- The client state inside `start_server` right after `subprocess.Popen`
succeeded and the reader thread was started, before `_initialize_connection`
runs: the fields of `freshClient` with a live process. -/
def startedClient : Client :=
  { freshClient with processAlive := some true }

/-- One iteration of the body of `MCPClient._read_responses` on a single
line: a blank line is skipped, a malformed line is reported
(`print` of the warning) and skipped, a parsed message is appended to the
shared queue (`self.response_queue.put(response)`).  The second component is
the diagnostic printed, if any.  Totality of this function is the embedding
of the fact that no exception escapes the loop body. -/
def processLine (q : List Msg) (l : Line) : List Msg × Option String :=
  match l with
  | Line.blank => (q, none)
  | Line.malformed s => (q, some ("Invalid JSON from server: " ++ s))
  | Line.parsed m => (q ++ [m], none)

/-- The reader thread consuming a list of lines in order, threading the
queue and collecting the diagnostics printed. -/
def processLines : List Msg → List Line → List Msg × List String
  | q, [] => (q, [])
  | q, l :: ls =>
    let r := processLine q l
    let rest := processLines r.1 ls
    (rest.1, (match r.2 with
      | some msg => msg :: rest.2
      | none => rest.2))

/-- `MCPClient._wait_for_response`: `self.response_queue.get(timeout)`.
`q` is the queue content when the wait starts and `arrivals` the lines the
reader thread reads during the wait window.  If nothing is available the
`Empty` exception is caught and `None` returned (the timeout outcome);
otherwise the FIFO head is returned and the rest stays queued. -/
def waitForResponse (q : List Msg) (arrivals : List Line) :
    Option Msg × List Msg :=
  match (processLines q arrivals).1 with
  | [] => (none, [])
  | m :: rest => (some m, rest)

/-- `MCPClient._send_message`: returns `False` when `self.process` is `None`
or has exited; otherwise attempts the write, whose success is the parameter
`writeOk` (an exception during `write`/`flush` is caught and `False`
returned). -/
def send_message (st : Client) (writeOk : Bool) : Bool :=
  match st.processAlive with
  | some true => writeOk
  | _ => false

/-- The constant `params` object of the `initialize` request, carried
opaquely. -/
def initParams : String :=
  "protocolVersion=2024-06-18; capabilities=tools; clientInfo=lci-test-client 1.0.0"

/-- The `initialize` request frame built by `_initialize_connection` with the
current counter value as id. -/
def initRequest (i : Nat) : Msg :=
  { id := some i, method := some "initialize", result := none, error := none,
    otherFields := true }

/-- The `notifications/initialized` notification frame: no id. -/
def initializedNotice : Msg :=
  { id := none, method := some "notifications/initialized", result := none,
    error := none, otherFields := true }

/-- The `tools/call` request frame built by `call_tool` from the counter
value, tool name and arguments. -/
def toolCallRequest (i : Nat) (name args : String) : Msg :=
  { id := some i, method := some ("tools/call " ++ name ++ " " ++ args),
    result := none, error := none, otherFields := true }

/-- Result of `_initialize_connection`: the returned boolean, the client
state afterwards, and the frames actually written to the wire in order. -/
structure InitOutcome where
  ok : Bool
  client : Client
  sent : List Msg
deriving DecidableEq, Repr

/-- `MCPClient._initialize_connection`.  The `initialize` request is built
with `id := self.message_id`; the counter is incremented only after
`_send_message` succeeded.  The response check is
`response.get("id") != 1 or "result" not in response` — against the literal
constant 1, not against the id that was sent.  On success the
`notifications/initialized` notification is sent and no reply is awaited.
`writeOk1` is the success of the `initialize` write, `arrivals` the lines
read during the 5 second wait, `writeOk2` the success of the notification
write. -/
def initialize_connection (st : Client) (writeOk1 : Bool)
    (arrivals : List Line) (writeOk2 : Bool) : InitOutcome :=
  let req := initRequest st.message_id
  if send_message st writeOk1 = false then
    { ok := false, client := st, sent := [] }
  else
    let st1 : Client := { st with message_id := st.message_id + 1 }
    match waitForResponse st1.queue arrivals with
    | (none, q1) =>
      { ok := false, client := { st1 with queue := q1 }, sent := [req] }
    | (some resp, q1) =>
      let st2 : Client := { st1 with queue := q1 }
      if resp.isFalsy then
        { ok := false, client := st2, sent := [req] }
      else if resp.id ≠ some 1 ∨ resp.result = none then
        { ok := false, client := st2, sent := [req] }
      else if send_message st2 writeOk2 = false then
        { ok := false, client := st2, sent := [req] }
      else
        { ok := true, client := st2, sent := [req, initializedNotice] }

/-- `MCPClient.start_server` with a successful `Popen`: spawn the process,
start the reader thread, then run the handshake.  Note that neither the
counter nor the queue is reset, so a second `start_server` on the same
object inherits both. -/
def start_server (st : Client) (writeOk1 : Bool) (arrivals : List Line)
    (writeOk2 : Bool) : InitOutcome :=
  initialize_connection { st with processAlive := some true }
    writeOk1 arrivals writeOk2

/-- Result of one `call_tool` invocation: the returned value (`none` on any
failure, otherwise `response.get("result")`), the request id assigned (the
local `request_id`, `none` when the liveness guard failed before one was
assigned), the client state afterwards, and the frames written to the
wire. -/
structure CallOutcome where
  result : Option String
  request_id : Option Nat
  client : Client
  sent : List Msg
deriving DecidableEq, Repr

/-- `MCPClient.call_tool`.  Guard: `self.process` must exist and `poll()`
be `None`, otherwise return `None` at once.  Then the request is built with
`id := self.message_id`, `request_id` records it, and the counter is
incremented unconditionally, before the write is attempted.  On write
failure, wait timeout, falsy response, id mismatch, or an `error` key in the
response, `None` is returned; otherwise `response.get("result")`. -/
def call_tool (st : Client) (name args : String) (writeOk : Bool)
    (arrivals : List Line) : CallOutcome :=
  if st.processAlive ≠ some true then
    { result := none, request_id := none, client := st, sent := [] }
  else
    let request_id := st.message_id
    let req := toolCallRequest request_id name args
    let st1 : Client := { st with message_id := st.message_id + 1 }
    if send_message st1 writeOk = false then
      { result := none, request_id := some request_id, client := st1,
        sent := [] }
    else
      match waitForResponse st1.queue arrivals with
      | (none, q1) =>
        { result := none, request_id := some request_id,
          client := { st1 with queue := q1 }, sent := [req] }
      | (some resp, q1) =>
        let st2 : Client := { st1 with queue := q1 }
        if resp.isFalsy then
          { result := none, request_id := some request_id, client := st2,
            sent := [req] }
        else if resp.id ≠ some request_id then
          { result := none, request_id := some request_id, client := st2,
            sent := [req] }
        else if resp.error.isSome then
          { result := none, request_id := some request_id, client := st2,
            sent := [req] }
        else
          { result := resp.result, request_id := some request_id,
            client := st2, sent := [req] }

/-- The reader thread running between two calls: the lines it reads are
appended to the shared queue. -/
def readerStep (st : Client) (ls : List Line) : Client :=
  { st with queue := (processLines st.queue ls).1 }

/-! ## Refined layer: arbitrary JSON values on the queue

`_read_responses` calls `json.loads(line)` and puts the result on the queue
unchanged (`mcp_test_client.py` lines 51 to 52).  `json.loads` also accepts
non-object documents such as `42`, `"hi"`, `[1]`, `true` or `null`, so the
queue can hold values on which the dict methods used by the callers do not
exist: `response.get("id")` then raises `AttributeError`, which no handler in
`call_tool` catches.  The following definitions repeat the model with this
larger value type so that this path is representable. -/

/-- Any value `json.loads` can produce: an object (restricted to the fields
the client reads, as in `Msg`), or a non-object value recorded together with
its Python truthiness (`42`, `"hi"`, `[1]`, `true` are truthy; `0`, `""`,
`[]`, `false`, `null` are falsy). -/
inductive JVal where
  | obj (m : Msg) : JVal
  | nonObj (truthy : Bool) : JVal
deriving DecidableEq, Repr

/-- Python truthiness of a parsed JSON value: an object is falsy exactly
when it is empty, a non-object value carries its own truthiness. -/
def JVal.isFalsy : JVal → Bool
  | JVal.obj m => m.isFalsy
  | JVal.nonObj t => !t

/-- A raw line in the refined layer: as `Line`, but a successfully parsed
document may be any JSON value. -/
inductive RLine where
  | blank : RLine
  | malformed (s : String) : RLine
  | parsed (v : JVal) : RLine
deriving DecidableEq, Repr

/-- The embedding of the object-only lines into the refined layer. -/
def RLine.ofLine : Line → RLine
  | Line.blank => RLine.blank
  | Line.malformed s => RLine.malformed s
  | Line.parsed m => RLine.parsed (JVal.obj m)

/-- Client state in the refined layer: as `Client`, with the queue holding
arbitrary parsed JSON values. -/
structure ClientR where
  processAlive : Option Bool
  message_id : Nat
  queue : List JVal
deriving DecidableEq, Repr

/-- `MCPClient._send_message` in the refined layer (it never looks at the
queue, so this is the same function over `ClientR`). -/
def send_messageR (st : ClientR) (writeOk : Bool) : Bool :=
  match st.processAlive with
  | some true => writeOk
  | _ => false

/-- One iteration of the `_read_responses` body in the refined layer:
identical to `processLine`, except that any parsed JSON value is enqueued. -/
def processLineR (q : List JVal) (l : RLine) : List JVal × Option String :=
  match l with
  | RLine.blank => (q, none)
  | RLine.malformed s => (q, some ("Invalid JSON from server: " ++ s))
  | RLine.parsed v => (q ++ [v], none)

/-- The reader thread over refined lines, threading the queue and collecting
the diagnostics printed. -/
def processLinesR : List JVal → List RLine → List JVal × List String
  | q, [] => (q, [])
  | q, l :: ls =>
    let r := processLineR q l
    let rest := processLinesR r.1 ls
    (rest.1, (match r.2 with
      | some msg => msg :: rest.2
      | none => rest.2))

/-- `_wait_for_response` in the refined layer: `queue.get` hands back
whatever value is at the head, with no type inspection. -/
def waitForResponseR (q : List JVal) (arrivals : List RLine) :
    Option JVal × List JVal :=
  match (processLinesR q arrivals).1 with
  | [] => (none, [])
  | v :: rest => (some v, rest)

/-- How a `call_tool` invocation ends in the refined layer: a normal return
(of `None` or of the `result` payload), or an uncaught `AttributeError`
raised by `response.get("id")` on a non-object value. -/
inductive PyOutcome where
  | ret (v : Option String) : PyOutcome
  | attrError : PyOutcome
deriving DecidableEq, Repr

/-- Result of one `call_tool` invocation in the refined layer, mirroring
`CallOutcome` with the richer outcome type. -/
structure CallOutcomeR where
  result : PyOutcome
  request_id : Option Nat
  client : ClientR
  sent : List Msg
deriving DecidableEq, Repr

/-- `MCPClient.call_tool` in the refined layer.  The control flow is that of
`call_tool`; the only new behaviour is at the dequeued value: a falsy value
of any shape is caught by `if not response` and yields `None`, and on a
truthy non-object value the very next expression `response.get("id")`
(line 162) raises `AttributeError`, which nothing in `call_tool` catches. -/
def call_tool_r (st : ClientR) (name args : String) (writeOk : Bool)
    (arrivals : List RLine) : CallOutcomeR :=
  if st.processAlive ≠ some true then
    { result := PyOutcome.ret none, request_id := none, client := st,
      sent := [] }
  else
    let request_id := st.message_id
    let req := toolCallRequest request_id name args
    let st1 : ClientR := { st with message_id := st.message_id + 1 }
    if send_messageR st1 writeOk = false then
      { result := PyOutcome.ret none, request_id := some request_id,
        client := st1, sent := [] }
    else
      match waitForResponseR st1.queue arrivals with
      | (none, q1) =>
        { result := PyOutcome.ret none, request_id := some request_id,
          client := { st1 with queue := q1 }, sent := [req] }
      | (some v, q1) =>
        let st2 : ClientR := { st1 with queue := q1 }
        if v.isFalsy then
          { result := PyOutcome.ret none, request_id := some request_id,
            client := st2, sent := [req] }
        else
          match v with
          | JVal.nonObj _ =>
            { result := PyOutcome.attrError, request_id := some request_id,
              client := st2, sent := [req] }
          | JVal.obj resp =>
            if resp.id ≠ some request_id then
              { result := PyOutcome.ret none, request_id := some request_id,
                client := st2, sent := [req] }
            else if resp.error.isSome then
              { result := PyOutcome.ret none, request_id := some request_id,
                client := st2, sent := [req] }
            else
              { result := PyOutcome.ret resp.result,
                request_id := some request_id, client := st2, sent := [req] }

/-- A refined-layer client in the state reached after a successful
handshake: live process, counter 2, empty queue. -/
def readyStR : ClientR :=
  { processAlive := some true, message_id := 2, queue := [] }

/-- One `call_tool` invocation in a session trace: tool name, arguments,
write success, and the lines the reader reads during the wait. -/
structure CallOp where
  name : String
  args : String
  writeOk : Bool
  arrivals : List Line
deriving DecidableEq, Repr

/-- A session trace: run a list of `call_tool` invocations in order,
collecting the request ids assigned (the local `request_id` of each
invocation that passed the liveness guard). -/
def runCalls : Client → List CallOp → Client × List Nat
  | st, [] => (st, [])
  | st, op :: ops =>
    let o := call_tool st op.name op.args op.writeOk op.arrivals
    let r := runCalls o.client ops
    (r.1, (match o.request_id with
      | some i => i :: r.2
      | none => r.2))

/-- State of the second client variant, class `MCPTestClient` of
`src/testing/integration/test_llm_evaluation.py`: just the id counter
`self.request_id`, initialised to 0. -/
structure TClient where
  request_id : Nat
deriving DecidableEq, Repr

/-- `MCPTestClient.__init__`: counter starts at 0. -/
def TClient.fresh : TClient := { request_id := 0 }

/-- `MCPTestClient.send_request`: the counter is incremented first, then its
new value is used as the request id, so the first request carries id 1. -/
def TClient.send_request (st : TClient) : Nat × TClient :=
  let st1 : TClient := { request_id := st.request_id + 1 }
  (st1.request_id, st1)

/-- The ids produced by `k` consecutive `send_request` calls on a fresh
`MCPTestClient`, with the final client state. -/
def TClient.run : Nat → TClient × List Nat
  | 0 => (TClient.fresh, [])
  | k + 1 =>
    let p := TClient.run k
    let s := p.1.send_request
    (s.2, p.2 ++ [s.1])

/-- A client in the state reached by a fresh object after a successful
handshake: live process, counter 2, empty queue.  Used as the concrete
session state of the counterexample scenarios. -/
def readySt : Client :=
  { processAlive := some true, message_id := 2, queue := [] }

/-- A response frame for id 2 arriving after the call with id 2 already
timed out. -/
def lateResp : Msg := { id := some 2, result := some "late", otherFields := true }

/-- The response frame belonging to the call with id 3. -/
def ownResp : Msg := { id := some 3, result := some "mine", otherFields := true }

/-- A server-to-client notification frame: a method, no id. -/
def notifMsg : Msg := { method := some "notifications/progress", otherFields := true }

/-- A well-formed successful response frame for id 2. -/
def goodResp : Msg := { id := some 2, result := some "ok", otherFields := true }

/-- A well-formed `initialize` response: id 1 with a result. -/
def initResp : Msg := { id := some 1, result := some "caps", otherFields := true }

/-- An `initialize` response carrying a wrong id. -/
def badResp : Msg := { id := some 7, result := some "caps", otherFields := true }

/-- A response that correctly echoes a sent id of 2. -/
def echoResp2 : Msg := { id := some 2, result := some "caps", otherFields := true }

/-- A response for id 2 carrying an `error` object. -/
def errResp : Msg :=
  { id := some 2, error := some "code -32000 message boom", otherFields := true }

/-! ## Helper lemmas about the model -/

/-- The liveness guard: with no running process, `call_tool` fails at once,
touching nothing and sending nothing. -/
theorem call_tool_dead (st : Client) (n a : String) (w : Bool)
    (ar : List Line) (h : st.processAlive ≠ some true) :
    call_tool st n a w ar =
      { result := none, request_id := none, client := st, sent := [] } := by
  simp [call_tool, h]

/-- `call_tool` never changes the process handle. -/
theorem call_tool_processAlive (st : Client) (n a : String) (w : Bool)
    (ar : List Line) :
    (call_tool st n a w ar).client.processAlive = st.processAlive := by
  simp only [call_tool]
  repeat' split
  all_goals rfl

/-- With a live process, `call_tool` assigns the current counter as the
request id and increments the counter by exactly one, whatever the outcome
of the write and the wait. -/
theorem call_tool_alive_id (st : Client) (n a : String) (w : Bool)
    (ar : List Line) (h : st.processAlive = some true) :
    (call_tool st n a w ar).request_id = some st.message_id ∧
      (call_tool st n a w ar).client.message_id = st.message_id + 1 := by
  simp only [call_tool, h]
  norm_num
  repeat' split
  all_goals exact ⟨rfl, rfl⟩

/-- Along any trace of `call_tool` invocations, the request ids assigned
are strictly increasing, and all of them are at least the counter value at
the start of the trace. -/
theorem runCalls_ids_sorted (ops : List CallOp) (st : Client) :
    List.Pairwise (fun i j => i < j) (runCalls st ops).2 ∧
      ∀ i ∈ (runCalls st ops).2, st.message_id ≤ i := by
  induction ops generalizing st with
  | nil => simp [runCalls]
  | cons op ops ih =>
    by_cases h : st.processAlive = some true
    · have hid := call_tool_alive_id st op.name op.args op.writeOk op.arrivals h
      have ihs := ih (call_tool st op.name op.args op.writeOk op.arrivals).client
      simp only [runCalls, hid.1]
      constructor
      · refine List.Pairwise.cons ?_ ihs.1
        intro j hj
        have := ihs.2 j hj
        omega
      · intro i hi
        rcases List.mem_cons.mp hi with rfl | hi
        · omega
        · have := ihs.2 i hi
          omega
    · have hdead := call_tool_dead st op.name op.args op.writeOk op.arrivals h
      simp only [runCalls, hdead]
      exact ih st

/-- After `k` calls of `send_request` on a fresh `MCPTestClient`, the
counter equals `k` and the ids handed out are exactly 1, 2, …, k. -/
theorem TClient.run_ids (k : Nat) :
    (TClient.run k).1.request_id = k ∧ (TClient.run k).2 = List.range' 1 k := by
  induction k with
  | zero => simp [TClient.run, TClient.fresh]
  | succ k ih =>
    simp only [TClient.run, TClient.send_request, ih.1, ih.2]
    refine ⟨trivial, ?_⟩
    have h1 : List.range' 1 (k + 1) = List.range' 1 k ++ [1 + 1 * k] :=
      List.range'_concat 1 k
    simp [h1]
    omega

/-- On object-only input the refined reader behaves exactly like the simple
one: same queue (up to the `JVal.obj` embedding) and same diagnostics. -/
theorem processLinesR_obj (ls : List Line) (q : List Msg) :
    processLinesR (q.map JVal.obj) (ls.map RLine.ofLine)
      = ((processLines q ls).1.map JVal.obj, (processLines q ls).2) := by
  induction ls generalizing q with
  | nil => simp [processLines, processLinesR]
  | cons l ls ih =>
    cases l with
    | blank =>
      simp [processLines, processLinesR, processLine, processLineR,
        RLine.ofLine, ih]
    | malformed s =>
      simp [processLines, processLinesR, processLine, processLineR,
        RLine.ofLine, ih]
    | parsed m =>
      have := ih (q ++ [m])
      simp [processLines, processLinesR, processLine, processLineR,
        RLine.ofLine] at this ⊢
      exact this

/-- On object-only input the refined wait agrees with the simple one. -/
theorem waitForResponseR_obj (q : List Msg) (ls : List Line) :
    waitForResponseR (q.map JVal.obj) (ls.map RLine.ofLine)
      = ((waitForResponse q ls).1.map JVal.obj,
          (waitForResponse q ls).2.map JVal.obj) := by
  simp only [waitForResponseR, waitForResponse, processLinesR_obj]
  cases (processLines q ls).1 <;> simp

/-- The simple model is the object-frame restriction of the refined one:
whenever every queued and arriving document is an object, `call_tool_r`
returns normally with exactly the value `call_tool` computes.  The
`AttributeError` outcome can therefore only arise from non-object input,
which the simple layer deliberately excludes. -/
theorem call_tool_r_agrees (st : Client) (n a : String) (w : Bool)
    (ls : List Line) :
    (call_tool_r
        { processAlive := st.processAlive, message_id := st.message_id,
          queue := st.queue.map JVal.obj } n a w (ls.map RLine.ofLine)).result
      = PyOutcome.ret (call_tool st n a w ls).result := by
  by_cases h : st.processAlive = some true
  · simp only [call_tool_r, call_tool, h]
    norm_num
    have hw := waitForResponseR_obj st.queue ls
    by_cases hsend : w = true
    · subst hsend
      simp only [send_message, send_messageR, h]
      norm_num
      rw [hw]
      rcases hres : waitForResponse st.queue ls with ⟨o, q1⟩
      cases o with
      | none => simp
      | some m =>
        simp only [Option.map_some]
        by_cases hfal : m.isFalsy
        · simp [JVal.isFalsy, hfal]
        · simp only [Bool.not_eq_true] at hfal
          simp only [JVal.isFalsy, hfal]
          by_cases hid : m.id = some st.message_id
          · simp only [hid]
            by_cases herr : m.error.isSome
            · simp [herr]
            · simp only [Bool.not_eq_true] at herr
              simp [hfal, hid, herr]
          · simp [hid]
    · have hw2 : w = false := by
        cases w
        · rfl
        · exact absurd rfl hsend
      subst hw2
      simp [send_message, send_messageR, h]
  · simp [call_tool_r, call_tool, h]

/-- Claim C2: within a session the request ids are assigned by the counter
starting at 1, each sent request consuming exactly one increment (the
handshake included), so ids strictly increase and are never reused, and two
sequential `call_tool` invocations produce ids N and N+1 in that order; the
`MCPTestClient` variant likewise hands out ids 1, 2, …, k. -/
theorem c2_request_id_counter (st : Client) (h : st.processAlive = some true)
    (n1 a1 n2 a2 : String) (w1 w2 wh : Bool) (ar1 ar2 arh : List Line)
    (ops : List CallOp) (k : Nat) :
    freshClient.message_id = 1
    ∧ (initialize_connection st true arh wh).client.message_id = st.message_id + 1
    ∧ (call_tool st n1 a1 w1 ar1).request_id = some st.message_id
    ∧ (call_tool (call_tool st n1 a1 w1 ar1).client n2 a2 w2 ar2).request_id
        = some (st.message_id + 1)
    ∧ List.Pairwise (fun i j => i < j) (runCalls st ops).2
    ∧ (TClient.run k).2 = List.range' 1 k := by
  have h1 := call_tool_alive_id st n1 a1 w1 ar1 h
  have hp : (call_tool st n1 a1 w1 ar1).client.processAlive = some true := by
    rw [call_tool_processAlive]; exact h
  have h2 := call_tool_alive_id (call_tool st n1 a1 w1 ar1).client n2 a2 w2 ar2 hp
  refine ⟨rfl, ?_, h1.1, ?_, (runCalls_ids_sorted ops st).1, (TClient.run_ids k).2⟩
  · simp only [initialize_connection, send_message, h]
    norm_num
    repeat' split
    all_goals rfl
  · rw [h2.1, h1.2]

theorem c2_witness :
    readySt.processAlive = some true
    ∧ (freshClient.message_id = 1
      ∧ (initialize_connection readySt true [] true).client.message_id
          = readySt.message_id + 1
      ∧ (call_tool readySt "search" "x" true []).request_id = some readySt.message_id
      ∧ (call_tool (call_tool readySt "search" "x" true []).client "lookup" "y" true
          []).request_id = some (readySt.message_id + 1)
      ∧ List.Pairwise (fun i j => i < j)
          (runCalls readySt
            [CallOp.mk "search" "x" true [], CallOp.mk "lookup" "y" false []]).2
      ∧ (TClient.run 3).2 = List.range' 1 3) :=
  ⟨by decide,
    c2_request_id_counter readySt (by decide) "search" "x" "lookup" "y" true true true
      [] [] []
      [CallOp.mk "search" "x" true [], CallOp.mk "lookup" "y" false []] 3⟩

/-- Claim C5: from the fresh (uninitialised) session state the handshake
sends `initialize` with id 1; a response with id 1 carrying a `result` makes
it send the `notifications/initialized` notification (awaiting no reply) and
report success, while a response whose id does not match or which lacks a
`result` makes it fail without sending the notification. -/
theorem c5_handshake_sequence (r : Msg) :
    ((r.id = some 1 ∧ r.result ≠ none) →
      initialize_connection startedClient true [Line.parsed r] true =
        { ok := true,
          client := { processAlive := some true, message_id := 2, queue := [] },
          sent := [initRequest 1, initializedNotice] })
    ∧ ((r.id ≠ some 1 ∨ r.result = none) →
      (initialize_connection startedClient true [Line.parsed r] true).ok = false
      ∧ (initialize_connection startedClient true [Line.parsed r] true).sent
          = [initRequest 1]) := by
  constructor
  · rintro ⟨hid, hres⟩
    have hfal : r.isFalsy = false := by simp [Msg.isFalsy, hid]
    simp [initialize_connection, send_message, startedClient, freshClient,
      waitForResponse, processLines, processLine, hfal, hid, hres]
  · intro hbad
    by_cases hfal : r.isFalsy
    · simp [initialize_connection, send_message, startedClient, freshClient,
        waitForResponse, processLines, processLine, hfal]
    · simp only [Bool.not_eq_true] at hfal
      simp [initialize_connection, send_message, startedClient, freshClient,
        waitForResponse, processLines, processLine, hfal, hbad]

theorem c5_witness :
    (initResp.id = some 1 ∧ initResp.result ≠ none)
    ∧ (badResp.id ≠ some 1 ∨ badResp.result = none)
    ∧ (initialize_connection startedClient true [Line.parsed initResp] true =
        { ok := true,
          client := { processAlive := some true, message_id := 2, queue := [] },
          sent := [initRequest 1, initializedNotice] })
    ∧ ((initialize_connection startedClient true [Line.parsed badResp] true).ok = false
      ∧ (initialize_connection startedClient true [Line.parsed badResp] true).sent
          = [initRequest 1]) :=
  ⟨by decide, by decide,
    (c5_handshake_sequence initResp).1 (by decide),
    (c5_handshake_sequence badResp).2 (by decide)⟩

/-- Claim C9: `_initialize_connection` sends the `initialize` request with
the current counter value as id but validates the response against the
literal constant 1, so for a server that correctly echoes the sent id the
handshake (and hence `start_server`) succeeds exactly when the counter is 1;
with any larger counter, for example after a previous `start_server` on the
same object advanced it, even the correct echoing reply is rejected. -/
theorem c9_handshake_checks_constant_one (st : Client) (hq : st.queue = [])
    (r : Msg) (hecho : r.id = some st.message_id) (hres : r.result ≠ none) :
    (start_server st true [Line.parsed r] true).sent.head?
        = some (initRequest st.message_id)
    ∧ ((start_server st true [Line.parsed r] true).ok = true ↔ st.message_id = 1) := by
  have hfal : r.isFalsy = false := by simp [Msg.isFalsy, hecho]
  by_cases hm : st.message_id = 1
  · rw [hm] at hecho
    simp [hm, start_server, initialize_connection, send_message, waitForResponse,
      processLines, processLine, hq, hfal, hecho, hres]
  · have hne : r.id ≠ some 1 := by simp [hecho, hm]
    simp [start_server, initialize_connection, send_message, waitForResponse,
      processLines, processLine, hq, hfal, hne, hm]

theorem c9_witness :
    readySt.queue = []
    ∧ echoResp2.id = some readySt.message_id
    ∧ echoResp2.result ≠ none
    ∧ ((start_server readySt true [Line.parsed echoResp2] true).sent.head?
        = some (initRequest readySt.message_id)
      ∧ ((start_server readySt true [Line.parsed echoResp2] true).ok = true
        ↔ readySt.message_id = 1)) :=
  ⟨by decide, by decide, by decide,
    c9_handshake_checks_constant_one readySt (by decide) echoResp2 (by decide)
      (by decide)⟩

/-- Claim C8: a line that fails to parse as JSON is reported and skipped by
the reader without any exception reaching other components (the loop body is
a total function), reading continues with the next line, and a valid
response arriving after the malformed line still resolves the pending call
correctly. -/
theorem c8_malformed_line_skipped (q : List Msg) (s : String) (st : Client)
    (h : st.processAlive = some true) (hq : st.queue = []) (n a v : String)
    (r : Msg) (hid : r.id = some st.message_id) (herr : r.error = none)
    (hres : r.result = some v) :
    processLine q (Line.malformed s) = (q, some ("Invalid JSON from server: " ++ s))
    ∧ (call_tool st n a true [Line.malformed s, Line.parsed r]).result = some v := by
  refine ⟨rfl, ?_⟩
  have hfal : r.isFalsy = false := by simp [Msg.isFalsy, hid]
  simp [call_tool, send_message, waitForResponse, processLines, processLine,
    h, hq, hfal, hid, herr, hres]

theorem c8_witness :
    readySt.processAlive = some true
    ∧ readySt.queue = []
    ∧ goodResp.id = some readySt.message_id
    ∧ goodResp.error = none
    ∧ goodResp.result = some "ok"
    ∧ (processLine [] (Line.malformed "garbage")
        = ([], some ("Invalid JSON from server: " ++ "garbage"))
      ∧ (call_tool readySt "search" "x" true
          [Line.malformed "garbage", Line.parsed goodResp]).result = some "ok") :=
  ⟨by decide, by decide, by decide, by decide, by decide,
    c8_malformed_line_skipped [] "garbage" readySt (by decide) (by decide)
      "search" "x" "ok" goodResp (by decide) (by decide) (by decide)⟩

/-- Claim C1 fails on the code: after a call with id 2 times out, its late
response is not discarded — the reader enqueues it, and the next invocation
(id 3) dequeues the stale frame, fails the id check and returns `none`,
even though the response carrying its own id (`ownResp`, id 3) arrived
during its wait and would have yielded `some "mine"`. -/
theorem c1_counterexample :
    (call_tool readySt "search" "q1" true []).result = none
    ∧ (call_tool (readerStep (call_tool readySt "search" "q1" true []).client
        [Line.parsed lateResp]) "search" "q2" true
        [Line.parsed ownResp]).request_id = some 3
    ∧ ownResp.id = some 3 ∧ ownResp.result = some "mine"
    ∧ (call_tool (readerStep (call_tool readySt "search" "q1" true []).client
        [Line.parsed lateResp]) "search" "q2" true
        [Line.parsed ownResp]).result = none := by
  decide

/-- Claim C1 as amended: a timed-out call returns `none`; the late response
is not removed or discarded but parked on the shared FIFO queue, and the
next `call_tool` invocation dequeues it, fails its id check, and returns
`none` while the response carrying its own id stays behind in the queue. -/
theorem c1_amended (st : Client) (h : st.processAlive = some true)
    (hq : st.queue = []) (n1 a1 n2 a2 : String) (rLate rOwn : Msg)
    (hLate : rLate.id = some st.message_id)
    (hOwn : rOwn.id = some (st.message_id + 1)) :
    (call_tool st n1 a1 true []).result = none
    ∧ (call_tool (readerStep (call_tool st n1 a1 true []).client
        [Line.parsed rLate]) n2 a2 true [Line.parsed rOwn]).result = none
    ∧ (call_tool (readerStep (call_tool st n1 a1 true []).client
        [Line.parsed rLate]) n2 a2 true [Line.parsed rOwn]).client.queue
        = [rOwn] := by
  obtain ⟨pa, mid, q⟩ := st
  simp only at h hq hLate hOwn
  subst h hq
  have hfal : rLate.isFalsy = false := by simp [Msg.isFalsy, hLate]
  have hne : rLate.id ≠ some (mid + 1) := by simp [hLate]
  simp [call_tool, send_message, waitForResponse, processLines, processLine,
    readerStep, hfal, hne]

theorem c1_amended_witness :
    readySt.processAlive = some true
    ∧ readySt.queue = []
    ∧ lateResp.id = some readySt.message_id
    ∧ ownResp.id = some (readySt.message_id + 1)
    ∧ ((call_tool readySt "search" "q1" true []).result = none
      ∧ (call_tool (readerStep (call_tool readySt "search" "q1" true []).client
          [Line.parsed lateResp]) "search" "q2" true
          [Line.parsed ownResp]).result = none
      ∧ (call_tool (readerStep (call_tool readySt "search" "q1" true []).client
          [Line.parsed lateResp]) "search" "q2" true
          [Line.parsed ownResp]).client.queue = [ownResp]) :=
  ⟨by decide, by decide, by decide, by decide,
    c1_amended readySt (by decide) (by decide) "search" "q1" "search" "q2"
      lateResp ownResp (by decide) (by decide)⟩

/-- Claim C3 fails on the code: the reader enqueues a notification (method,
no id) like any response instead of logging and discarding it, and delivery
is by arrival order, not by id.  With a call waiting for id 2, a
notification arriving before the id-2 response is dequeued by the waiter and
makes the call return `none`; the very same response resolves the call with
`some "ok"` when the notification does not precede it. -/
theorem c3_counterexample :
    processLine [] (Line.parsed notifMsg) = ([notifMsg], none)
    ∧ notifMsg.id = none ∧ notifMsg.method = some "notifications/progress"
    ∧ goodResp.id = some 2
    ∧ (call_tool readySt "search" "q" true
        [Line.parsed notifMsg, Line.parsed goodResp]).result = none
    ∧ (call_tool readySt "search" "q" true [Line.parsed goodResp]).result
        = some "ok" := by
  decide

/-- Claim C3 as amended: `_read_responses` appends every successfully parsed
frame — notifications included, inspecting neither id nor method — to the
single shared queue; the waiter consumes strictly in arrival order and
`call_tool` itself performs the id check after dequeuing, so a notification
arriving while a call waits is handed to that caller and fails the call with
an id mismatch instead of being discarded. -/
theorem c3_amended (q : List Msg) (m : Msg) (st : Client)
    (h : st.processAlive = some true) (hq : st.queue = [])
    (n a mth v : String) (notif resp : Msg)
    (hnid : notif.id = none) (hnm : notif.method = some mth)
    (hrid : resp.id = some st.message_id) (hrr : resp.result = some v)
    (hre : resp.error = none) :
    processLine q (Line.parsed m) = (q ++ [m], none)
    ∧ (call_tool st n a true [Line.parsed notif, Line.parsed resp]).result = none
    ∧ (call_tool st n a true [Line.parsed resp]).result = some v := by
  obtain ⟨pa, mid, qs⟩ := st
  simp only at h hq hrid
  subst h hq
  have hnfal : notif.isFalsy = false := by simp [Msg.isFalsy, hnm]
  have hrfal : resp.isFalsy = false := by simp [Msg.isFalsy, hrid]
  have hne : notif.id ≠ some mid := by simp [hnid]
  refine ⟨rfl, ?_, ?_⟩
  · simp [call_tool, send_message, waitForResponse, processLines, processLine,
      hnfal, hne]
  · simp [call_tool, send_message, waitForResponse, processLines, processLine,
      hrfal, hrid, hrr, hre]

theorem c3_amended_witness :
    readySt.processAlive = some true
    ∧ readySt.queue = []
    ∧ notifMsg.id = none
    ∧ notifMsg.method = some "notifications/progress"
    ∧ goodResp.id = some readySt.message_id
    ∧ goodResp.result = some "ok"
    ∧ goodResp.error = none
    ∧ (processLine [] (Line.parsed notifMsg) = ([] ++ [notifMsg], none)
      ∧ (call_tool readySt "search" "q" true
          [Line.parsed notifMsg, Line.parsed goodResp]).result = none
      ∧ (call_tool readySt "search" "q" true [Line.parsed goodResp]).result
          = some "ok") :=
  ⟨by decide, by decide, by decide, by decide, by decide, by decide, by decide,
    c3_amended [] notifMsg readySt (by decide) (by decide) "search" "q"
      "notifications/progress" "ok" notifMsg goodResp (by decide) (by decide)
      (by decide) (by decide) (by decide)⟩

/-- Claim C4 fails on the code: there is no handshake state.  In a session
whose handshake failed (the `initialize` response carried id 7, so Ready was
never reached) but whose process is still running, `call_tool` writes a full
`tools/call` frame to the wire instead of failing with a state error and
zero bytes. -/
theorem c4_counterexample :
    (initialize_connection startedClient true [Line.parsed badResp] true).ok = false
    ∧ (call_tool
        (initialize_connection startedClient true [Line.parsed badResp] true).client
        "search" "x" true []).sent = [toolCallRequest 2 "search" "x"] := by
  decide

/-- Claim C4 as amended: `call_tool` guards only on process liveness.  With
no running process it returns `none` immediately, touches nothing and writes
zero bytes; but whenever the process is running and the write succeeds it
puts a `tools/call` frame on the wire, with no check that the handshake ever
reached a ready state. -/
theorem c4_amended (st st2 : Client) (h : st.processAlive ≠ some true)
    (h2 : st2.processAlive = some true) (n a n2 a2 : String) (w : Bool)
    (ar ar2 : List Line) :
    call_tool st n a w ar
      = { result := none, request_id := none, client := st, sent := [] }
    ∧ (call_tool st2 n2 a2 true ar2).sent = [toolCallRequest st2.message_id n2 a2] := by
  refine ⟨call_tool_dead st n a w ar h, ?_⟩
  simp only [call_tool, h2, send_message]
  norm_num
  repeat' split
  all_goals rfl

theorem c4_amended_witness :
    freshClient.processAlive ≠ some true
    ∧ readySt.processAlive = some true
    ∧ (call_tool freshClient "search" "x" true []
        = { result := none, request_id := none, client := freshClient, sent := [] }
      ∧ (call_tool readySt "lookup" "y" true []).sent
          = [toolCallRequest readySt.message_id "lookup" "y"]) :=
  ⟨by decide, by decide,
    c4_amended freshClient readySt (by decide) (by decide) "search" "x"
      "lookup" "y" true [] []⟩

/-- Claim C6 fails on the code: nothing resolves a pending call when the
child process exits or the reader loop terminates.  The scenario in which
the reader has stopped and nothing more arrives (the empty arrivals list)
yields the plain `none` after the full wait — the very same outcome as an
ordinary timeout against a live but silent server — so no ProcessError-like
resolution is distinguishable. -/
theorem c6_counterexample :
    (call_tool readySt "search" "q1" true []).result = none
    ∧ (call_tool readySt "search" "q1" true []).result
        = (call_tool { processAlive := some true, message_id := 9, queue := [] }
            "slow_tool" "q2" true [Line.blank]).result := by
  decide

/-- Claim C6 as amended: a pending call never hangs forever only because
every wait is bounded by its timeout; when the child exits before
responding, the reader loop terminates without resolving anything, and the
caller keeps waiting for the full timeout and then receives the same
undifferentiated `none` as a plain timeout. -/
theorem c6_amended (st st2 : Client) (h : st.processAlive = some true)
    (hq : st.queue = []) (h2 : st2.processAlive = some true)
    (hq2 : st2.queue = []) (n a n2 a2 : String) :
    (call_tool st n a true []).result = none
    ∧ (call_tool st n a true []).result
        = (call_tool st2 n2 a2 true [Line.blank]).result := by
  have e1 : (call_tool st n a true []).result = none := by
    simp [call_tool, send_message, waitForResponse, processLines, processLine,
      h, hq]
  have e2 : (call_tool st2 n2 a2 true [Line.blank]).result = none := by
    simp [call_tool, send_message, waitForResponse, processLines, processLine,
      h2, hq2]
  exact ⟨e1, e1.trans e2.symm⟩

theorem c6_amended_witness :
    readySt.processAlive = some true
    ∧ readySt.queue = []
    ∧ ((call_tool readySt "search" "q1" true []).result = none
      ∧ (call_tool readySt "search" "q1" true []).result
          = (call_tool readySt "lookup" "q2" true [Line.blank]).result) :=
  ⟨by decide, by decide,
    c6_amended readySt readySt (by decide) (by decide) (by decide) (by decide)
      "search" "q1" "lookup" "q2"⟩

/-- Claim C7 fails on the code: there are no structured error kinds.  Four
different failure causes — the wait expiring, the response carrying an
`error` object, a write failure, and the process not running — all return
the identical undifferentiated `None`. -/
theorem c7_counterexample :
    (call_tool readySt "search" "x" true []).result = none
    ∧ errResp.error = some "code -32000 message boom"
    ∧ (call_tool readySt "search" "x" true [Line.parsed errResp]).result = none
    ∧ (call_tool readySt "search" "x" false []).result = none
    ∧ (call_tool freshClient "search" "x" true []).result = none := by
  decide

/-- Claim C7 as amended: on the enumerated failure paths — process not
running, write failure, wait timeout, wrong id on an object frame, response
carrying an `error` field — `call_tool` returns the single undifferentiated
value `None`, with only printed diagnostics telling the causes apart.  The
exception-freedom half of the claim is false as well: the reader enqueues
any successfully parsed JSON document, and when the dequeued value is a
truthy non-object (such as `42`), `response.get("id")` raises an uncaught
`AttributeError`, while a falsy non-object (such as `0`) is swallowed by
`if not response` and returns `None` like a timeout. -/
theorem c7_amended (st st0 : Client) (str : ClientR)
    (h : st.processAlive = some true) (hq : st.queue = [])
    (h0 : st0.processAlive ≠ some true)
    (hr2 : str.processAlive = some true) (hq2 : str.queue = [])
    (n a : String) (r e : Msg) (hr : r.id = some st.message_id)
    (he : r.error ≠ none) (hm : e.id ≠ some st.message_id)
    (hmf : e.isFalsy = false) :
    (call_tool st0 n a true []).result = none
    ∧ (call_tool st n a false []).result = none
    ∧ (call_tool st n a true []).result = none
    ∧ (call_tool st n a true [Line.parsed e]).result = none
    ∧ (call_tool st n a true [Line.parsed r]).result = none
    ∧ (call_tool_r str n a true [RLine.parsed (JVal.nonObj true)]).result
        = PyOutcome.attrError
    ∧ (call_tool_r str n a true [RLine.parsed (JVal.nonObj false)]).result
        = PyOutcome.ret none := by
  have hrfal : r.isFalsy = false := by simp [Msg.isFalsy, hr]
  have hre : r.error.isSome := by
    cases hx : r.error with
    | none => exact absurd hx he
    | some s => rfl
  refine ⟨?_, ?_, ?_, ?_, ?_, ?_, ?_⟩
  · simp [call_tool, h0]
  · simp [call_tool, send_message, h]
  · simp [call_tool, send_message, waitForResponse, processLines, processLine,
      h, hq]
  · simp [call_tool, send_message, waitForResponse, processLines, processLine,
      h, hq, hm, hmf]
  · simp [call_tool, send_message, waitForResponse, processLines, processLine,
      h, hq, hr, hrfal, hre]
  · simp [call_tool_r, send_messageR, waitForResponseR, processLinesR,
      processLineR, JVal.isFalsy, hr2, hq2]
  · simp [call_tool_r, send_messageR, waitForResponseR, processLinesR,
      processLineR, JVal.isFalsy, hr2, hq2]

theorem c7_amended_witness :
    readySt.processAlive = some true
    ∧ readySt.queue = []
    ∧ freshClient.processAlive ≠ some true
    ∧ readyStR.processAlive = some true
    ∧ readyStR.queue = []
    ∧ errResp.id = some readySt.message_id
    ∧ errResp.error ≠ none
    ∧ badResp.id ≠ some readySt.message_id
    ∧ badResp.isFalsy = false
    ∧ ((call_tool freshClient "search" "x" true []).result = none
      ∧ (call_tool readySt "search" "x" false []).result = none
      ∧ (call_tool readySt "search" "x" true []).result = none
      ∧ (call_tool readySt "search" "x" true [Line.parsed badResp]).result = none
      ∧ (call_tool readySt "search" "x" true [Line.parsed errResp]).result = none
      ∧ (call_tool_r readyStR "search" "x" true
          [RLine.parsed (JVal.nonObj true)]).result = PyOutcome.attrError
      ∧ (call_tool_r readyStR "search" "x" true
          [RLine.parsed (JVal.nonObj false)]).result = PyOutcome.ret none) :=
  ⟨by decide, by decide, by decide, by decide, by decide, by decide, by decide,
    by decide, by decide,
    c7_amended readySt freshClient readyStR (by decide) (by decide)
      (by decide) (by decide) (by decide) "search" "x" errResp badResp
      (by decide) (by decide) (by decide) (by decide)⟩

/-- Claim C10 fails on the code for the handshake path: `_initialize_connection`
builds the `initialize` request and then increments the counter only after
its write has succeeded, so when the write fails the counter stays at 1
instead of the claimed unconditional increment to 2. -/
theorem c10_counterexample :
    ¬ ((initialize_connection startedClient false [] true).client.message_id
        = startedClient.message_id + 1) := by
  decide

/-- Claim C10 as amended: `call_tool` increments the counter unconditionally
once the request is built, before the write is attempted, so on a live
process every invocation consumes an id even when the write fails, nothing
is sent and `None` is returned; the handshake however increments only after
its `initialize` write has succeeded — a failed handshake write consumes no
id, and since it also puts nothing on the wire, ids on the wire are still
never reused. -/
theorem c10_amended (st st2 : Client) (h : st.processAlive = some true)
    (h2 : st2.processAlive = some true) (n a : String) (ar ar2 : List Line)
    (w2 : Bool) :
    (call_tool st n a false ar).client.message_id = st.message_id + 1
    ∧ (call_tool st n a false ar).request_id = some st.message_id
    ∧ (call_tool st n a false ar).result = none
    ∧ (call_tool st n a false ar).sent = []
    ∧ (initialize_connection st2 false ar2 w2).client.message_id = st2.message_id
    ∧ (initialize_connection st2 false ar2 w2).sent = []
    ∧ (initialize_connection st2 true ar2 w2).client.message_id
        = st2.message_id + 1 := by
  refine ⟨?_, ?_, ?_, ?_, ?_, ?_, ?_⟩
  · simp [call_tool, send_message, h]
  · simp [call_tool, send_message, h]
  · simp [call_tool, send_message, h]
  · simp [call_tool, send_message, h]
  · simp [initialize_connection, send_message, h2]
  · simp [initialize_connection, send_message, h2]
  · simp only [initialize_connection, send_message, h2]
    norm_num
    repeat' split
    all_goals rfl

theorem c10_amended_witness :
    readySt.processAlive = some true
    ∧ startedClient.processAlive = some true
    ∧ ((call_tool readySt "search" "x" false []).client.message_id
          = readySt.message_id + 1
      ∧ (call_tool readySt "search" "x" false []).request_id
          = some readySt.message_id
      ∧ (call_tool readySt "search" "x" false []).result = none
      ∧ (call_tool readySt "search" "x" false []).sent = []
      ∧ (initialize_connection startedClient false [] true).client.message_id
          = startedClient.message_id
      ∧ (initialize_connection startedClient false [] true).sent = []
      ∧ (initialize_connection startedClient true [] true).client.message_id
          = startedClient.message_id + 1) :=
  ⟨by decide, by decide,
    c10_amended readySt startedClient (by decide) (by decide) "search" "x"
      [] [] true⟩
